import Mathlib

/-!
# WAMR Zephyr demo harnesses: `tflite-wasm` and `tflm-wasm`

A shallow embedding of the two `main.c` programs under
`product-mini/platforms/zephyr/{tflite-wasm,tflm-wasm}/src`.

The programs are straight-line drivers of the WASM runtime library.  The
runtime itself is not part of the sources, so every runtime call is an
*event*; the answers the runtime gives (success or failure of a call, the
offset returned by an allocation, which names resolve, the exception left
behind by the guest) are read from a `World`, which is universally
quantified in the theorems.  A program is embedded as the function that
maps a `World` to the list of events it performs, in program order.

Not modelled: clock values read with `k_uptime_get_32` (the `elapsed`
messages carry their label only), the contents of `error_buf`, the
compile-time choice of allocator in `init_args`, and the board bring-up in
`main`.
-/

namespace Wamr

/-! ## Values shared by both programs -/

/-- Host functions that `tflite-wasm` binds into the guest. -/
inductive HostFunc
  | gpio_toggle
  | delay
  deriving DecidableEq, Repr

/-- One row of a native symbol table: `NativeSymbol { symbol, func_ptr, signature }`. -/
structure NativeSymbol where
  symbol : String
  func_ptr : HostFunc
  signature : String
  deriving DecidableEq, Repr

/-- The C struct `Input`: three `uint32_t` scalars, then `uint32_t sizes[3]`
and `uint32_t strides[3]`.  The arrays are lists; their length is part of
`Input.WF`. -/
structure Input where
  base_ptr : Nat
  data : Nat
  offset : Nat
  sizes : List Nat
  strides : List Nat
  deriving DecidableEq, Repr

/-- The C struct `Output`: three `uint32_t` scalars, then `uint32_t sizes[2]`
and `uint32_t strides[2]`. -/
structure Output where
  base_ptr : Nat
  data : Nat
  offset : Nat
  sizes : List Nat
  strides : List Nat
  deriving DecidableEq, Repr

/-- What a `printk` / `printf` / `os_printf` call emits.  Format strings
are kept symbolic: a message is identified by what it reports. -/
inductive Msg
  | text (s : String)
  | wasm_file_size
  | error_buf
  | elapsed (label : String)
  | heap_size (n : Nat)
  | stack_size (n : Nat)
  | clock_frequency
  | result (argv0 : Nat)
  | exception (s : String)
  | output_value (i : Nat) (v : Nat)
  deriving DecidableEq, Repr

/-- Source object of a `memcpy` into guest memory. -/
inductive Src
  | scaled_data
  | input (d : Input)
  | output (d : Output)
  deriving DecidableEq, Repr

/-- One call made by a program, with the arguments it passes and, where the
program inspects it, the answer it gets.  Native pointers are `Option Nat`
with `none` for `NULL`. -/
inductive Event
  | full_init (ok : Bool)
  | register_natives (module_name : String) (symbols : List NativeSymbol) (n : Nat) (ok : Bool)
  | load (ok : Bool)
  | instantiate (stack_size heap_size : Nat) (ok : Bool)
  | create_exec_env (stack_size : Nat) (ok : Bool)
  | module_malloc (size : Nat) (ret : Nat)
  | memcpy (dst : Option Nat) (src : Src) (n : Nat)
  | lookup_function (name : String) (found : Bool)
  | call_wasm (func : String) (argc : Nat) (argv : List Nat)
  | application_execute_main
  | get_exception (present : Bool)
  | module_free (ptr : Nat)
  | destroy_exec_env
  | deinstantiate
  | unload
  | destroy
  | gpio_state_write (pin : Nat)
  | log_verbose (s : String)
  | print (m : Msg)
  deriving DecidableEq, Repr

/-- Answers of the runtime library, one field per call site whose result
the programs use.

* `module_malloc k` is the guest offset returned by the `k`-th call of
  `wasm_runtime_module_malloc` (0 is the failure value of that API).
* `lookup_function name` tells whether `wasm_runtime_lookup_function`
  resolves `name` in the module instance.
* `exception` is the exception held by the module instance once the guest
  entry point has run; `wasm_runtime_get_exception` reads it.
* `argv0` is the first argument word after `wasm_runtime_call_wasm`
  (the raw return word), `output_tensor i` the `i`-th element read back from
  the output tensor buffer. -/
structure World where
  full_init : Bool
  register_natives : Bool
  load : Bool
  instantiate : Bool
  create_exec_env : Bool
  module_malloc : Nat → Nat
  lookup_function : String → Bool
  exception : Option String
  argv0 : Nat
  output_tensor : Nat → Nat

/-- Value of a `*_native_ptr` variable after `wasm_runtime_module_malloc`.
The variable is initialised to `NULL`; the runtime stores the host view of
the allocated bytes (identified with the guest offset) through its last
parameter when the allocation succeeds, so the variable is `NULL` exactly
when the returned offset is 0. -/
def native_addr (guest_ptr : Nat) : Option Nat :=
  if guest_ptr = 0 then none else some guest_ptr

/-! ## Observations on traces -/

/-- Calls into the WASM runtime library (everything except GPIO writes,
logging and printing). -/
def Event.isRuntimeCall : Event → Bool
  | .gpio_state_write _ => false
  | .log_verbose _ => false
  | .print _ => false
  | .memcpy _ _ _ => false
  | _ => true

/-- Resources a session acquires and releases. -/
inductive Resource
  | runtime
  | module
  | module_inst
  | exec_env
  | buffer (guest_ptr : Nat)
  deriving DecidableEq, Repr

/-- The resource a successful acquiring call hands out. -/
def Event.acquires : Event → Option Resource
  | .full_init true => some .runtime
  | .load true => some .module
  | .instantiate _ _ true => some .module_inst
  | .create_exec_env _ true => some .exec_env
  | .module_malloc _ ret => if ret = 0 then none else some (.buffer ret)
  | _ => none

/-- The resource a releasing call gives back. -/
def Event.releases : Event → Option Resource
  | .module_free ptr => some (.buffer ptr)
  | .destroy_exec_env => some .exec_env
  | .deinstantiate => some .module_inst
  | .unload => some .module
  | .destroy => some .runtime
  | _ => none

/-- Resources acquired along a trace, in order of acquisition. -/
def acquired (t : List Event) : List Resource := t.filterMap Event.acquires

/-- Resources released along a trace, in order of release. -/
def released (t : List Event) : List Resource := t.filterMap Event.releases

/-- Calls that set up or tear down the runtime, a module or an instance. -/
def Event.isLifecycle : Event → Bool
  | .full_init _ => true
  | .register_natives _ _ _ _ => true
  | .load _ => true
  | .instantiate _ _ _ => true
  | .deinstantiate => true
  | .unload => true
  | .destroy => true
  | _ => false

/-- Calls of `wasm_runtime_register_natives`. -/
def Event.isRegisterNatives : Event → Bool
  | .register_natives _ _ _ _ => true
  | _ => false

/-- Calls of `wasm_runtime_load` or `wasm_runtime_instantiate`. -/
def Event.isLoadOrInstantiate : Event → Bool
  | .load _ => true
  | .instantiate _ _ _ => true
  | _ => false

/-- Calls of `wasm_runtime_create_exec_env`. -/
def Event.isCreateExecEnv : Event → Bool
  | .create_exec_env _ _ => true
  | _ => false

/-- Calls that run guest code: `wasm_runtime_call_wasm` and
`wasm_application_execute_main`. -/
def Event.invokesGuest : Event → Bool
  | .call_wasm _ _ _ => true
  | .application_execute_main => true
  | _ => false

/-- Sizes requested from `wasm_runtime_module_malloc` along a trace. -/
def malloc_sizes (t : List Event) : List Nat :=
  t.filterMap (fun e => match e with
    | .module_malloc size _ => some size
    | _ => none)

/-! ## Guest memory and the byte image of the descriptors -/

/-- Object representation of a `uint32_t` on the little-endian target: four
bytes, least significant first. -/
def uint32_bytes (x : Nat) : List Nat :=
  [x % 256, x / 256 % 256, x / 65536 % 256, x / 16777216 % 256]

/-- Value of four little-endian bytes read as a `uint32_t`. -/
def uint32_of_bytes : List Nat → Nat
  | [b0, b1, b2, b3] => b0 + 256 * b1 + 65536 * b2 + 16777216 * b3
  | _ => 0

/-- Splits a byte string into consecutive 4-byte words and reads each as a
`uint32_t`; `fuel` bounds the number of words. -/
def words_of_bytes : Nat → List Nat → List Nat
  | 0, _ => []
  | fuel + 1, bs => uint32_of_bytes (bs.take 4) :: words_of_bytes fuel (bs.drop 4)

/-- Nine members of four bytes each, no padding: `sizeof(Input)`. -/
def sizeof_Input : Nat := 4 * (3 + 3 + 3)

/-- Seven members of four bytes each, no padding: `sizeof(Output)`. -/
def sizeof_Output : Nat := 4 * (3 + 2 + 2)

/-- Members of an `Input` in declaration order. -/
def Input.words (d : Input) : List Nat :=
  d.base_ptr :: d.data :: d.offset :: (d.sizes ++ d.strides)

/-- Members of an `Output` in declaration order. -/
def Output.words (d : Output) : List Nat :=
  d.base_ptr :: d.data :: d.offset :: (d.sizes ++ d.strides)

/-- Object representation of an `Input`, the bytes `memcpy` reads from `&input`. -/
def Input.bytes (d : Input) : List Nat := d.words.flatMap uint32_bytes

/-- Object representation of an `Output`, the bytes `memcpy` reads from `&output`. -/
def Output.bytes (d : Output) : List Nat := d.words.flatMap uint32_bytes

/-- Reads `sizeof(Input)` bytes as an `Input`. -/
def Input.of_bytes (bs : List Nat) : Option Input :=
  if bs.length = sizeof_Input then
    match words_of_bytes 9 bs with
    | [b, d, o, s0, s1, s2, t0, t1, t2] => some ⟨b, d, o, [s0, s1, s2], [t0, t1, t2]⟩
    | _ => none
  else none

/-- Reads `sizeof(Output)` bytes as an `Output`. -/
def Output.of_bytes (bs : List Nat) : Option Output :=
  if bs.length = sizeof_Output then
    match words_of_bytes 7 bs with
    | [b, d, o, s0, s1, t0, t1] => some ⟨b, d, o, [s0, s1], [t0, t1]⟩
    | _ => none
  else none

/-- Every member is a `uint32_t` and the arrays have three elements. -/
def Input.WF (d : Input) : Prop :=
  d.sizes.length = 3 ∧ d.strides.length = 3 ∧ ∀ x ∈ d.words, x < 2 ^ 32

/-- Every member is a `uint32_t` and the arrays have two elements. -/
def Output.WF (d : Output) : Prop :=
  d.sizes.length = 2 ∧ d.strides.length = 2 ∧ ∀ x ∈ d.words, x < 2 ^ 32

/-- Linear memory of the guest, one byte per address. -/
abbrev Mem := Nat → Nat

/-- The C `memcpy(dst, src, n)` with `src` given by its `n` bytes. -/
def memcpy (m : Mem) (dst : Nat) (src : List Nat) : Mem :=
  fun a => if dst ≤ a ∧ a < dst + src.length then src.getD (a - dst) 0 else m a

/-- The `n` bytes of memory starting at `addr`. -/
def Mem.read (m : Mem) (addr n : Nat) : List Nat :=
  (List.range n).map (fun i => m (addr + i))

/-! ## Single-precision arithmetic

A finite `float32` value is a rational number.  Conversion to `float32` and
`float32` division return the representable value nearest to the exact
result, ties going to the even significand.  Results beyond the largest
finite `float32` (infinities) and NaN are outside this model. -/

/-- Nearest integer, ties to the even one. -/
def round_nearest_even (x : ℚ) : ℤ :=
  if x - ⌊x⌋ < 1 / 2 then ⌊x⌋
  else if 1 / 2 < x - ⌊x⌋ then ⌊x⌋ + 1
  else if ⌊x⌋ % 2 = 0 then ⌊x⌋ else ⌊x⌋ + 1

/-- Binary exponent of the `float32` binade of `q`: the floor of the base-2
logarithm of the magnitude, but not below -126, where the subnormal range
begins. -/
def float32_exponent (q : ℚ) : ℤ := max (Int.log 2 |q|) (-126)

/-- Rounding of an exact value to `float32`: a multiple of the unit in the
last place of its binade, which is 23 binary places below the exponent. -/
def float32_round (q : ℚ) : ℚ :=
  round_nearest_even (q / 2 ^ (float32_exponent q - 23)) * 2 ^ (float32_exponent q - 23)

/-! ## The `tflite-wasm` program -/

namespace Tflite

/-- The macro `CONFIG_APP_STACK_SIZE` of `tflite-wasm/src/main.c`. -/
def CONFIG_APP_STACK_SIZE : Nat := 256000

/-- The macro `CONFIG_APP_HEAP_SIZE` of `tflite-wasm/src/main.c`. -/
def CONFIG_APP_HEAP_SIZE : Nat := 256000

/-- The macro `INPUT_TENSOR_SIZE`. -/
def INPUT_TENSOR_SIZE : Nat := 3136

/-- The macro `OUTPUT_TENSOR_SIZE`. -/
def OUTPUT_TENSOR_SIZE : Nat := 40

/-- Size in bytes of a `float32`. -/
def sizeof_float32 : Nat := 4

/-- Number of elements of `float32 scaled_data[28 * 28]`. -/
def scaled_data_len : Nat := 28 * 28

/-- The preprocessing statement `(float32)input_data[i] / (float32)255.0`:
both operands are converted to `float32` and the quotient is the `float32`
division of the two.  The argument is the numeric value of `input_data[i]`. -/
def scale (v : ℚ) : ℚ := float32_round (float32_round v / float32_round 255)

/-- The preprocessing loop: `scaled_data[i]` for `i = 0 .. 28 * 28 - 1`.
The table `input_data` comes from a header that is not part of the sources
and is a parameter. -/
def scaled_data (input_data : Nat → ℚ) : List ℚ :=
  (List.range scaled_data_len).map (fun i => scale (input_data i))

/-- The initialiser of `Input input` in `app_instance_main`. -/
def input (input_tensor_ptr : Nat) : Input :=
  ⟨input_tensor_ptr, input_tensor_ptr, 0, [1, 28, 28], [28 * 28, 28, 1]⟩

/-- The initialiser of `Output output` in `app_instance_main`. -/
def output (output_tensor_ptr : Nat) : Output :=
  ⟨output_tensor_ptr, output_tensor_ptr, 0, [1, 10], [10, 1]⟩

/-- The static table `native_symbols` of `iwasm_main`. -/
def native_symbols : List NativeSymbol :=
  [⟨"gpio_toggle", .gpio_toggle, "()"⟩, ⟨"delay", .delay, "(i)"⟩]

/-- The C expression `sizeof(native_symbols) / sizeof(NativeSymbol)`. -/
def n_native_symbols : Nat := native_symbols.length

/-- The function `app_instance_main` of `tflite-wasm/src/main.c`. -/
def app_instance_main (w : World) : List Event :=
  let input_tensor_ptr := w.module_malloc 0
  let input_ptr := w.module_malloc 1
  let output_tensor_ptr := w.module_malloc 2
  let output_ptr := w.module_malloc 3
  [Event.create_exec_env CONFIG_APP_STACK_SIZE w.create_exec_env] ++
  if !w.create_exec_env then
    [Event.print (.text "Create exec env failed\n")]
  else
    [ Event.module_malloc INPUT_TENSOR_SIZE input_tensor_ptr,
      Event.memcpy (native_addr input_tensor_ptr) .scaled_data INPUT_TENSOR_SIZE,
      Event.module_malloc sizeof_Input input_ptr,
      Event.memcpy (native_addr input_ptr) (.input (input input_tensor_ptr)) sizeof_Input,
      Event.module_malloc OUTPUT_TENSOR_SIZE output_tensor_ptr,
      Event.module_malloc sizeof_Output output_ptr,
      Event.memcpy (native_addr output_ptr) (.output (output output_tensor_ptr)) sizeof_Output,
      Event.lookup_function "_mlir_ciface_main" (w.lookup_function "_mlir_ciface_main") ] ++
    if !w.lookup_function "_mlir_ciface_main" then
      [Event.print (.text "Fail to find function: _mlir_ciface_main\n")]
    else
      [ Event.call_wasm "_mlir_ciface_main" 2 [input_ptr, output_ptr],
        Event.get_exception w.exception.isSome ] ++
      (if w.exception.isNone then [Event.print (.result w.argv0)] else []) ++
      [Event.get_exception w.exception.isSome] ++
      (match w.exception with
        | some exception => [Event.print (.exception exception)]
        | none => []) ++
      (List.range 10).map (fun i => Event.print (.output_value i (w.output_tensor i))) ++
      [ Event.module_free input_tensor_ptr,
        Event.module_free output_tensor_ptr,
        Event.module_free input_ptr,
        Event.module_free output_ptr,
        Event.destroy_exec_env ]

/-- The function `iwasm_main` of `tflite-wasm/src/main.c`.  The labels
`fail2` and `fail1` are the two tails every later exit falls through. -/
def iwasm_main (w : World) : List Event :=
  let fail1 := [Event.destroy, Event.print (.elapsed "elapsed")]
  let fail2 := Event.unload :: fail1
  [Event.print (.text "hello world\n"), Event.full_init w.full_init] ++
  if !w.full_init then
    [Event.print (.text "Init runtime environment failed.\n")]
  else
    [Event.register_natives "env" native_symbols n_native_symbols w.register_natives] ++
    if !w.register_natives then
      Event.print (.text "Register natives failed.\n") :: fail1
    else
      [Event.print .wasm_file_size, Event.load w.load] ++
      if !w.load then
        Event.print .error_buf :: fail1
      else
        [ Event.print (.elapsed "elapsed (module load)"),
          Event.print (.heap_size CONFIG_APP_HEAP_SIZE),
          Event.print (.stack_size CONFIG_APP_STACK_SIZE),
          Event.print .clock_frequency,
          Event.instantiate CONFIG_APP_STACK_SIZE CONFIG_APP_HEAP_SIZE w.instantiate ] ++
        if !w.instantiate then
          Event.print .error_buf :: fail2
        else
          [ Event.print (.elapsed "elapsed (module instantiation)"),
            Event.gpio_state_write 23 ] ++
          app_instance_main w ++
          [ Event.gpio_state_write 23,
            Event.print (.elapsed "elapsed (finish main)"),
            Event.deinstantiate ] ++
          fail2

end Tflite

/-! ## The `tflm-wasm` program -/

namespace Tflm

/-- The macro `CONFIG_APP_STACK_SIZE` of `tflm-wasm/src/main.c`. -/
def CONFIG_APP_STACK_SIZE : Nat := 32768

/-- The macro `CONFIG_APP_HEAP_SIZE` of `tflm-wasm/src/main.c`. -/
def CONFIG_APP_HEAP_SIZE : Nat := 524288

/-- The function `app_instance_main` of `tflm-wasm/src/main.c`.  The initial
value of `unsigned argv[2]` is `[0, 0]`. -/
def app_instance_main (w : World) : List Event :=
  let report :=
    [Event.get_exception w.exception.isSome] ++
    (match w.exception with
      | some exception => [Event.print (.exception exception)]
      | none => [])
  if w.lookup_function "main" then
    [ Event.lookup_function "main" true,
      Event.log_verbose "Calling main function\n",
      Event.application_execute_main ] ++ report
  else if w.lookup_function "__main_argc_argv" then
    [ Event.lookup_function "main" false,
      Event.lookup_function "__main_argc_argv" true,
      Event.log_verbose "Calling main function\n",
      Event.application_execute_main ] ++ report
  else
    [ Event.lookup_function "main" false,
      Event.lookup_function "__main_argc_argv" false,
      Event.lookup_function "app_main" (w.lookup_function "app_main") ] ++
    if w.lookup_function "app_main" then
      [Event.create_exec_env CONFIG_APP_HEAP_SIZE w.create_exec_env] ++
      if !w.create_exec_env then
        [Event.print (.text "Create exec env failed\n")]
      else
        [ Event.log_verbose "Calling app_main function\n",
          Event.call_wasm "app_main" 0 [0, 0],
          Event.get_exception w.exception.isSome ] ++
        (if w.exception.isNone then [Event.print (.result w.argv0)] else []) ++
        [Event.destroy_exec_env] ++ report
    else
      [Event.print (.text "Failed to lookup function main or app_main to call\n")]

/-- The function `iwasm_main` of `tflm-wasm/src/main.c`. -/
def iwasm_main (w : World) : List Event :=
  let fail1 := [Event.destroy, Event.print (.elapsed "elapsed")]
  let fail2 := Event.unload :: fail1
  [Event.full_init w.full_init] ++
  if !w.full_init then
    [Event.print (.text "Init runtime environment failed.\n")]
  else
    [Event.print .wasm_file_size, Event.load w.load] ++
    if !w.load then
      Event.print .error_buf :: fail1
    else
      [ Event.print (.elapsed "elapsed (module load)"),
        Event.print (.heap_size CONFIG_APP_HEAP_SIZE),
        Event.print (.stack_size CONFIG_APP_STACK_SIZE),
        Event.print .clock_frequency,
        Event.instantiate CONFIG_APP_STACK_SIZE CONFIG_APP_HEAP_SIZE w.instantiate ] ++
      if !w.instantiate then
        Event.print .error_buf :: fail2
      else
        [Event.print (.elapsed "elapsed (module instantiation)")] ++
        app_instance_main w ++
        [ Event.print (.elapsed "elapsed (finish main)"),
          Event.deinstantiate ] ++
        fail2

end Tflm

/-! ## Row-major tensor layout -/

/-- Strides of a densely packed row-major tensor: each stride is the product
of the sizes of all later dimensions. -/
def row_major_strides : List Nat → List Nat
  | [] => []
  | _ :: rest => rest.prod :: row_major_strides rest

/-- Element index addressed by a multi-index under a descriptor:
`offset + sum (idx[k] * strides[k])`. -/
def elem_index (offset : Nat) (idx strides : List Nat) : Nat :=
  offset + (List.zipWith (fun i s => i * s) idx strides).sum

/-! ## Concrete worlds -/

/-- Every call succeeds; the module exports `_mlir_ciface_main` and
`app_main` only; the guest returns without an exception. -/
def world_ok : World :=
  ⟨true, true, true, true, true, fun k => 4096 * (k + 1),
    fun name => name == "_mlir_ciface_main" || name == "app_main", none, 0, fun _ => 0⟩

/-- As `world_ok`, but the module exports none of the entry points. -/
def world_no_entry : World :=
  ⟨true, true, true, true, true, fun k => 4096 * (k + 1), fun _ => false, none, 0, fun _ => 0⟩

/-- As `world_ok`, but the second guest allocation (the input descriptor)
fails. -/
def world_malloc_fail : World :=
  ⟨true, true, true, true, true, fun k => if k = 1 then 0 else 4096 * (k + 1),
    fun name => name == "_mlir_ciface_main" || name == "app_main", none, 0, fun _ => 0⟩

/-- Registration of the native symbols fails. -/
def world_register_fail : World :=
  ⟨true, false, true, true, true, fun k => 4096 * (k + 1), fun _ => true, none, 0, fun _ => 0⟩

/-- The fully successful path of `tflite-wasm`: every runtime call succeeds,
the four allocations return nonzero offsets and the entry point resolves. -/
def Tflite.FullySuccessful (w : World) : Prop :=
  w.full_init = true ∧ w.register_natives = true ∧ w.load = true ∧ w.instantiate = true ∧
  w.create_exec_env = true ∧ w.module_malloc 0 ≠ 0 ∧ w.module_malloc 1 ≠ 0 ∧
  w.module_malloc 2 ≠ 0 ∧ w.module_malloc 3 ≠ 0 ∧
  w.lookup_function "_mlir_ciface_main" = true

theorem tflite_app_no_lifecycle (w : World) :
    ∀ e ∈ Tflite.app_instance_main w, e.isLifecycle = false := by
  intro e he
  have h : (Tflite.app_instance_main w).all (fun e => !e.isLifecycle) = true := by
    simp only [Tflite.app_instance_main]
    cases h1 : w.create_exec_env <;> cases h2 : w.lookup_function "_mlir_ciface_main" <;>
      cases h3 : w.exception <;> simp [h1, h2, h3, Event.isLifecycle]
  simpa using List.all_eq_true.mp h e he

theorem tflm_app_no_lifecycle (w : World) :
    ∀ e ∈ Tflm.app_instance_main w, e.isLifecycle = false := by
  intro e he
  have h : (Tflm.app_instance_main w).all (fun e => !e.isLifecycle) = true := by
    simp only [Tflm.app_instance_main]
    cases h1 : w.create_exec_env <;> cases h2 : w.lookup_function "main" <;>
      cases h3 : w.exception <;> cases h4 : w.lookup_function "__main_argc_argv" <;>
      cases h5 : w.lookup_function "app_main" <;>
      simp [h1, h2, h3, h4, h5, Event.isLifecycle]
  simpa using List.all_eq_true.mp h e he

theorem count_eq_zero_of_no_lifecycle {t : List Event} (h : ∀ e ∈ t, e.isLifecycle = false)
    (e : Event) (he : e.isLifecycle = true) : t.count e = 0 := by
  apply List.count_eq_zero.mpr
  intro hm
  have := h e hm
  simp [he] at this

theorem split_at_unique {p : Event → Bool} {r e : Event} {b post : List Event}
    (hb : ∀ x ∈ b, p x = false) (he : p e = true) :
    ∀ (a pre : List Event), (∀ x ∈ a, p x = false) → a ++ r :: b = pre ++ e :: post →
      pre = a ∧ e = r ∧ post = b := by
  intro a
  induction a with
  | nil =>
    intro pre _ h
    cases pre with
    | nil =>
      simp only [List.nil_append, List.cons.injEq] at h
      exact ⟨rfl, h.1.symm, h.2.symm⟩
    | cons x pre =>
      simp only [List.nil_append, List.cons_append, List.cons.injEq] at h
      have hm : e ∈ b := by rw [h.2]; simp
      have := hb e hm
      simp [he] at this
  | cons y a ih =>
    intro pre ha h
    cases pre with
    | nil =>
      simp only [List.nil_append, List.cons_append, List.cons.injEq] at h
      have := ha y (List.mem_cons_self _ _)
      rw [h.1, he] at this
      simp at this
    | cons x pre =>
      simp only [List.cons_append, List.cons.injEq] at h
      obtain ⟨h1, h2, h3⟩ := ih pre (fun x hx => ha x (List.mem_cons_of_mem _ hx)) h.2
      exact ⟨by rw [h.1, h1], h2, h3⟩

/-! ## C1: teardown matches acquisition in `iwasm_main` -/

/-- C1: in `iwasm_main` of both programs, whatever the runtime answers,
`wasm_runtime_destroy` is called once exactly when `wasm_runtime_full_init`
succeeded and otherwise not at all, `wasm_runtime_unload` once exactly when
`wasm_runtime_load` succeeded, `wasm_runtime_deinstantiate` once exactly when
`wasm_runtime_instantiate` succeeded; and when `wasm_runtime_full_init` fails
it is the only runtime call of the run. -/
theorem lifecycle_balanced (w : World) :
    ∀ t ∈ [Tflite.iwasm_main w, Tflm.iwasm_main w],
      (t.count .destroy = 1 ↔ Event.full_init true ∈ t) ∧ t.count .destroy ≤ 1 ∧
      (t.count .unload = 1 ↔ Event.load true ∈ t) ∧ t.count .unload ≤ 1 ∧
      (t.count .deinstantiate = 1 ↔ ∃ s h, Event.instantiate s h true ∈ t) ∧
      t.count .deinstantiate ≤ 1 ∧
      (Event.full_init false ∈ t → t.filter Event.isRuntimeCall = [Event.full_init false]) := by
  have a1 := tflite_app_no_lifecycle w
  have a2 := tflm_app_no_lifecycle w
  have c1 := count_eq_zero_of_no_lifecycle a1
  have c2 := count_eq_zero_of_no_lifecycle a2
  have d1 := c1 .destroy rfl
  have u1 := c1 .unload rfl
  have i1 := c1 .deinstantiate rfl
  have d2 := c2 .destroy rfl
  have u2 := c2 .unload rfl
  have i2 := c2 .deinstantiate rfl
  have m1 : ∀ b, Event.full_init b ∉ Tflite.app_instance_main w := fun b hm => by
    simpa [Event.isLifecycle] using a1 _ hm
  have m2 : ∀ b, Event.load b ∉ Tflite.app_instance_main w := fun b hm => by
    simpa [Event.isLifecycle] using a1 _ hm
  have m3 : ∀ s h b, Event.instantiate s h b ∉ Tflite.app_instance_main w :=
    fun s h b hm => by simpa [Event.isLifecycle] using a1 _ hm
  have n1 : ∀ b, Event.full_init b ∉ Tflm.app_instance_main w := fun b hm => by
    simpa [Event.isLifecycle] using a2 _ hm
  have n2 : ∀ b, Event.load b ∉ Tflm.app_instance_main w := fun b hm => by
    simpa [Event.isLifecycle] using a2 _ hm
  have n3 : ∀ s h b, Event.instantiate s h b ∉ Tflm.app_instance_main w :=
    fun s h b hm => by simpa [Event.isLifecycle] using a2 _ hm
  intro t ht
  simp only [List.mem_cons, List.mem_singleton, List.not_mem_nil, or_false] at ht
  rcases ht with rfl | rfl
  · simp only [Tflite.iwasm_main]
    cases h1 : w.full_init <;> cases h2 : w.register_natives <;> cases h3 : w.load <;>
      cases h4 : w.instantiate <;>
      simp [h1, h2, h3, h4, Event.isRuntimeCall, d1, u1, i1, m1, m2, m3, List.count_cons]
  · simp only [Tflm.iwasm_main]
    cases h1 : w.full_init <;> cases h3 : w.load <;>
      cases h4 : w.instantiate <;>
      simp [h1, h3, h4, Event.isRuntimeCall, d2, u2, i2, n1, n2, n3, List.count_cons]

/-- Witness for C1: on the all-success run of `tflite-wasm` the three
teardown calls are each made once. -/
theorem lifecycle_balanced_witness :
    Tflite.iwasm_main world_ok ∈ [Tflite.iwasm_main world_ok, Tflm.iwasm_main world_ok] ∧
    (Tflite.iwasm_main world_ok).count .destroy = 1 ∧
    (Tflite.iwasm_main world_ok).count .unload = 1 ∧
    (Tflite.iwasm_main world_ok).count .deinstantiate = 1 :=
  have h := lifecycle_balanced world_ok (Tflite.iwasm_main world_ok) (List.mem_cons_self _ _)
  ⟨List.mem_cons_self _ _,
    h.1.mpr (by simp [Tflite.iwasm_main, world_ok]),
    h.2.2.1.mpr (by simp [Tflite.iwasm_main, world_ok]),
    h.2.2.2.2.1.mpr ⟨Tflite.CONFIG_APP_STACK_SIZE, Tflite.CONFIG_APP_HEAP_SIZE,
      by simp [Tflite.iwasm_main, world_ok]⟩⟩

theorem acquires_output_loop (f : Nat → Nat) (l : List Nat) :
    List.filterMap (Event.acquires ∘ fun i => Event.print (Msg.output_value i (f i))) l = [] := by
  induction l with
  | nil => rfl
  | cons a l ih => simp [List.filterMap_cons, Event.acquires, ih]

theorem releases_output_loop (f : Nat → Nat) (l : List Nat) :
    List.filterMap (Event.releases ∘ fun i => Event.print (Msg.output_value i (f i))) l = [] := by
  induction l with
  | nil => rfl
  | cons a l ih => simp [List.filterMap_cons, Event.releases, ih]

/-! ## C2: cleanup on the early exits of the `tflite-wasm` `app_instance_main` -/

/-- C2: evaluation of the `tflite-wasm` `app_instance_main` at two inputs the
claim covers.  When `_mlir_ciface_main` does not resolve, the function
returns holding the exec env and all four guest buffers: nothing is
released.  When the allocation of the input descriptor fails, the copy into
it still goes through the `NULL` alias and the guest is still called. -/
theorem app_instance_main_early_exit_keeps_resources :
    acquired (Tflite.app_instance_main world_no_entry)
      = [.exec_env, .buffer 4096, .buffer 8192, .buffer 12288, .buffer 16384] ∧
    released (Tflite.app_instance_main world_no_entry) = [] ∧
    Event.module_malloc sizeof_Input 0 ∈ Tflite.app_instance_main world_malloc_fail ∧
    Event.memcpy none (.input (Tflite.input 4096)) sizeof_Input
      ∈ Tflite.app_instance_main world_malloc_fail ∧
    Event.call_wasm "_mlir_ciface_main" 2 [0, 16384]
      ∈ Tflite.app_instance_main world_malloc_fail := by
  refine ⟨?_, ?_, ?_, ?_, ?_⟩ <;>
    simp [Tflite.app_instance_main, world_no_entry, world_malloc_fail, acquired, released,
      Event.acquires, Event.releases, native_addr]

/-! ## C3: order of release on the successful path of `tflite-wasm` -/

theorem tflite_success_resources (w : World) (h : Tflite.FullySuccessful w) :
    acquired (Tflite.iwasm_main w)
      = [.runtime, .module, .module_inst, .exec_env, .buffer (w.module_malloc 0),
          .buffer (w.module_malloc 1), .buffer (w.module_malloc 2),
          .buffer (w.module_malloc 3)] ∧
    released (Tflite.iwasm_main w)
      = [.buffer (w.module_malloc 0), .buffer (w.module_malloc 2),
          .buffer (w.module_malloc 1), .buffer (w.module_malloc 3),
          .exec_env, .module_inst, .module, .runtime] := by
  obtain ⟨h1, h2, h3, h4, h5, m0, m1, m2, m3, h6⟩ := h
  cases h7 : w.exception <;>
    simp [Tflite.iwasm_main, Tflite.app_instance_main, acquired, released,
      Event.acquires, Event.releases, h1, h2, h3, h4, h5, h6, h7, m0, m1, m2, m3,
      List.filterMap_append, List.filterMap_cons, acquires_output_loop, releases_output_loop]

theorem world_ok_fully_successful : Tflite.FullySuccessful world_ok := by
  simp [Tflite.FullySuccessful, world_ok]

/-- C3 fails as stated: on the all-success run the releases are not the
acquisitions in reverse.  The input tensor buffer (offset 4096) is acquired
before the output descriptor buffer (offset 16384), at positions 4 and 7 of
the acquisitions, and is also released before it, at positions 0 and 3 of
the releases. -/
theorem release_order_not_reverse :
    Tflite.FullySuccessful world_ok ∧
    released (Tflite.iwasm_main world_ok) ≠ (acquired (Tflite.iwasm_main world_ok)).reverse ∧
    (acquired (Tflite.iwasm_main world_ok)).indexOf (.buffer 4096) = 4 ∧
    (acquired (Tflite.iwasm_main world_ok)).indexOf (.buffer 16384) = 7 ∧
    (released (Tflite.iwasm_main world_ok)).indexOf (.buffer 4096) = 0 ∧
    (released (Tflite.iwasm_main world_ok)).indexOf (.buffer 16384) = 3 := by
  obtain ⟨ha, hr⟩ := tflite_success_resources world_ok world_ok_fully_successful
  rw [ha, hr]
  refine ⟨world_ok_fully_successful, ?_, ?_, ?_, ?_, ?_⟩ <;> simp [world_ok]

/-- C3 (amended): on the fully successful path of `tflite-wasm` the
acquisitions are runtime, module, instance, exec env, then the buffers of
the input tensor, input descriptor, output tensor and output descriptor; the
releases are the buffers of the input tensor, output tensor, input
descriptor and output descriptor, then exec env, instance, module, runtime.
Exec env, instance, module and runtime leave in the reverse of the order
they came, after every guest buffer. -/
theorem release_order_on_success (w : World) (h : Tflite.FullySuccessful w) :
    acquired (Tflite.iwasm_main w)
      = [.runtime, .module, .module_inst, .exec_env, .buffer (w.module_malloc 0),
          .buffer (w.module_malloc 1), .buffer (w.module_malloc 2),
          .buffer (w.module_malloc 3)] ∧
    released (Tflite.iwasm_main w)
      = [.buffer (w.module_malloc 0), .buffer (w.module_malloc 2),
          .buffer (w.module_malloc 1), .buffer (w.module_malloc 3),
          .exec_env, .module_inst, .module, .runtime] :=
  tflite_success_resources w h

/-- Witness for C3 (amended): the all-success world. -/
theorem release_order_on_success_witness :
    Tflite.FullySuccessful world_ok ∧
    released (Tflite.iwasm_main world_ok)
      = [.buffer 4096, .buffer 12288, .buffer 8192, .buffer 16384,
          .exec_env, .module_inst, .module, .runtime] :=
  ⟨world_ok_fully_successful, (release_order_on_success world_ok world_ok_fully_successful).2⟩

/-! ## C4: choice of the entry point in the `tflm-wasm` `app_instance_main` -/

/-- C4: in the `tflm-wasm` `app_instance_main`, if `main` or
`__main_argc_argv` resolves then `wasm_application_execute_main` is invoked
and nothing is called through `wasm_runtime_call_wasm` (so `app_main` is
not); if neither resolves, `app_main` resolves and the exec env is created,
the only guest invocation is `app_main` through `wasm_runtime_call_wasm`
with argument count 0; if none of the three resolves no guest function is
invoked and no exec env is created. -/
theorem entry_point_priority (w : World) :
    ((w.lookup_function "main" = true ∨ w.lookup_function "__main_argc_argv" = true) →
      Event.application_execute_main ∈ Tflm.app_instance_main w ∧
      ∀ func argc argv, Event.call_wasm func argc argv ∉ Tflm.app_instance_main w) ∧
    (w.lookup_function "main" = false → w.lookup_function "__main_argc_argv" = false →
      w.lookup_function "app_main" = true → w.create_exec_env = true →
      (Tflm.app_instance_main w).filter Event.invokesGuest
        = [Event.call_wasm "app_main" 0 [0, 0]]) ∧
    (w.lookup_function "main" = false → w.lookup_function "__main_argc_argv" = false →
      w.lookup_function "app_main" = false →
      ∀ e ∈ Tflm.app_instance_main w, e.invokesGuest = false ∧ e.isCreateExecEnv = false) := by
  refine ⟨?_, ?_, ?_⟩
  · intro h
    cases h1 : w.lookup_function "main" <;> cases h2 : w.lookup_function "__main_argc_argv" <;>
      cases h3 : w.exception <;>
      simp_all [Tflm.app_instance_main]
  · intro h1 h2 h3 h4
    cases h5 : w.exception <;>
      simp [Tflm.app_instance_main, h1, h2, h3, h4, h5, Event.invokesGuest, List.filter_cons]
  · intro h1 h2 h3 e he
    simp [Tflm.app_instance_main, h1, h2, h3] at he
    rcases he with rfl | rfl | rfl | rfl <;> simp [Event.invokesGuest, Event.isCreateExecEnv]

/-- Witness for C4: a module that exports `app_main` only. -/
theorem entry_point_priority_witness :
    world_ok.lookup_function "main" = false ∧
    world_ok.lookup_function "__main_argc_argv" = false ∧
    world_ok.lookup_function "app_main" = true ∧ world_ok.create_exec_env = true ∧
    (Tflm.app_instance_main world_ok).filter Event.invokesGuest
      = [Event.call_wasm "app_main" 0 [0, 0]] :=
  ⟨by decide, by decide, by decide, rfl,
    (entry_point_priority world_ok).2.1 (by decide) (by decide) (by decide) rfl⟩

/-! ## C5: result and exception reports -/

theorem tflite_iwasm_main_shape (w : World) (h : w.full_init = true) :
    ∃ rest, Tflite.iwasm_main w
        = [Event.print (.text "hello world\n"), Event.full_init true] ++
          Event.register_natives "env" Tflite.native_symbols Tflite.n_native_symbols
            w.register_natives :: rest ∧
      (∀ x ∈ rest, x.isRegisterNatives = false) ∧
      (w.register_natives = false →
        (∀ x ∈ rest, x.isLoadOrInstantiate = false) ∧ rest.count .destroy = 1) := by
  have a1 := tflite_app_no_lifecycle w
  have r1 : ∀ x ∈ Tflite.app_instance_main w, x.isRegisterNatives = false := by
    intro x hx
    have := a1 x hx
    cases x <;> simp_all [Event.isLifecycle, Event.isRegisterNatives]
  cases h2 : w.register_natives <;> cases h3 : w.load <;> cases h4 : w.instantiate <;>
    simp [Tflite.iwasm_main, h, h2, h3, h4, Event.isRegisterNatives,
      Event.isLoadOrInstantiate, List.count_cons]
  intro a ha
  rcases ha with ha | rfl | rfl | rfl | rfl | rfl | rfl
  · exact r1 _ ha
  all_goals rfl

/-- C6: in `tflite-wasm`, `wasm_runtime_register_natives` is called at most
once; whenever it is called, `wasm_runtime_full_init` has succeeded before it
and no `wasm_runtime_load` or `wasm_runtime_instantiate` call precedes it; it
registers, under module name `env`, the two bindings (`gpio_toggle`, "()")
and (`delay`, "(i)"), whose names are distinct; and when registration fails
no module is loaded or instantiated and the runtime is destroyed once. -/
theorem register_natives_once_before_load (w : World) :
    (Tflite.iwasm_main w).countP Event.isRegisterNatives ≤ 1 ∧
    (∀ pre e post, Tflite.iwasm_main w = pre ++ e :: post → e.isRegisterNatives = true →
      Event.full_init true ∈ pre ∧ (∀ x ∈ pre, x.isLoadOrInstantiate = false) ∧
      (∀ x ∈ post, x.isRegisterNatives = false) ∧
      e = Event.register_natives "env"
            [⟨"gpio_toggle", .gpio_toggle, "()"⟩, ⟨"delay", .delay, "(i)"⟩] 2
            w.register_natives) ∧
    (Tflite.native_symbols.map NativeSymbol.symbol).Nodup ∧
    (∀ name syms n, Event.register_natives name syms n false ∈ Tflite.iwasm_main w →
      (∀ x ∈ Tflite.iwasm_main w, x.isLoadOrInstantiate = false) ∧
      (Tflite.iwasm_main w).count .destroy = 1) := by
  cases h : w.full_init with
  | false =>
    have ht : Tflite.iwasm_main w
        = [Event.print (.text "hello world\n"), Event.full_init false,
            Event.print (.text "Init runtime environment failed.\n")] := by
      simp [Tflite.iwasm_main, h]
    rw [ht]
    refine ⟨by simp [Event.isRegisterNatives], ?_, by decide, by simp⟩
    intro pre e post hsplit he
    have hm : e ∈ [Event.print (.text "hello world\n"), Event.full_init false,
        Event.print (.text "Init runtime environment failed.\n")] := by
      rw [hsplit]; simp
    simp only [List.mem_cons, List.mem_singleton, List.not_mem_nil, or_false] at hm
    rcases hm with rfl | rfl | rfl <;> simp [Event.isRegisterNatives] at he
  | true =>
    obtain ⟨rest, ht, hrest, hfail⟩ := tflite_iwasm_main_shape w h
    rw [ht]
    refine ⟨?_, ?_, by decide, ?_⟩
    · have : rest.countP Event.isRegisterNatives = 0 := by
        rw [List.countP_eq_zero]
        intro x hx
        simp [hrest x hx]
      simp [List.countP_cons, Event.isRegisterNatives, this]
    · intro pre e post hsplit he
      obtain ⟨h1, h2, h3⟩ := split_at_unique hrest (r := Event.register_natives "env"
        Tflite.native_symbols Tflite.n_native_symbols w.register_natives) he
        [Event.print (.text "hello world\n"), Event.full_init true] pre
        (by simp [Event.isRegisterNatives]) hsplit
      subst h1 h2 h3
      refine ⟨by simp, by simp [Event.isLoadOrInstantiate], hrest, ?_⟩
      simp [Tflite.native_symbols, Tflite.n_native_symbols]
    · intro name syms n hm
      have hreg : w.register_natives = false := by
        simp only [List.cons_append, List.nil_append, List.mem_cons, Event.register_natives.injEq,
          reduceCtorEq, false_or] at hm
        rcases hm with hm | hm
        · exact hm.2.2.2.symm
        · have := hrest _ hm
          simp [Event.isRegisterNatives] at this
      obtain ⟨hl, hd⟩ := hfail hreg
      refine ⟨?_, ?_⟩
      · intro x hx
        simp only [List.cons_append, List.nil_append, List.mem_cons] at hx
        rcases hx with rfl | rfl | rfl | hx
        · rfl
        · rfl
        · rfl
        · exact hl x hx
      · simp [List.count_cons, hd]

/-- Witness for C6: when registration fails, no module is loaded or
instantiated and the runtime is destroyed once. -/
theorem register_natives_once_before_load_witness :
    Event.register_natives "env" Tflite.native_symbols 2 false
      ∈ Tflite.iwasm_main world_register_fail ∧
    (∀ x ∈ Tflite.iwasm_main world_register_fail, x.isLoadOrInstantiate = false) ∧
    (Tflite.iwasm_main world_register_fail).count .destroy = 1 :=
  have h : Event.register_natives "env" Tflite.native_symbols 2 false
      ∈ Tflite.iwasm_main world_register_fail := by
    simp [Tflite.iwasm_main, world_register_fail, Tflite.n_native_symbols,
      Tflite.native_symbols]
  ⟨h, (register_natives_once_before_load world_register_fail).2.2.2 _ _ _ h⟩

/-! ## C7: round trip of the tensor descriptors through guest memory -/

theorem uint32_roundtrip (x : Nat) (h : x < 2 ^ 32) : uint32_of_bytes (uint32_bytes x) = x := by
  simp only [uint32_bytes, uint32_of_bytes]
  omega

theorem read_memcpy (m : Mem) (dst : Nat) (bs : List Nat) :
    Mem.read (memcpy m dst bs) dst bs.length = bs := by
  apply List.ext_getElem
  · simp [Mem.read]
  · intro i h1 h2
    have hi : i < bs.length := h2
    simp [Mem.read, memcpy, hi]

theorem input_roundtrip (d : Input) (h : d.WF) :
    d.bytes.length = sizeof_Input ∧ Input.of_bytes d.bytes = some d := by
  obtain ⟨b, dt, o, sizes, strides⟩ := d
  obtain ⟨hs, ht, hw⟩ := h
  simp only at hs ht
  match sizes, hs with
  | [s0, s1, s2], _ =>
    match strides, ht with
    | [t0, t1, t2], _ =>
      simp only [Input.words, List.cons_append, List.nil_append, List.mem_cons,
        List.mem_singleton, List.not_mem_nil, or_false, forall_eq_or_imp, forall_eq] at hw
      obtain ⟨h1, h2, h3, h4, h5, h6, h7, h8, h9⟩ := hw
      refine ⟨by simp [Input.bytes, Input.words, uint32_bytes, sizeof_Input], ?_⟩
      have e := fun x hx => uint32_roundtrip x hx
      simp only [uint32_bytes] at e
      simp [Input.of_bytes, Input.bytes, Input.words, uint32_bytes, sizeof_Input,
        words_of_bytes, e _ h1, e _ h2, e _ h3, e _ h4, e _ h5, e _ h6, e _ h7, e _ h8, e _ h9]

theorem output_roundtrip (d : Output) (h : d.WF) :
    d.bytes.length = sizeof_Output ∧ Output.of_bytes d.bytes = some d := by
  obtain ⟨b, dt, o, sizes, strides⟩ := d
  obtain ⟨hs, ht, hw⟩ := h
  simp only at hs ht
  match sizes, hs with
  | [s0, s1], _ =>
    match strides, ht with
    | [t0, t1], _ =>
      simp only [Output.words, List.cons_append, List.nil_append, List.mem_cons,
        List.mem_singleton, List.not_mem_nil, or_false, forall_eq_or_imp, forall_eq] at hw
      obtain ⟨h1, h2, h3, h4, h5, h6, h7⟩ := hw
      refine ⟨by simp [Output.bytes, Output.words, uint32_bytes, sizeof_Output], ?_⟩
      have e := fun x hx => uint32_roundtrip x hx
      simp only [uint32_bytes] at e
      simp [Output.of_bytes, Output.bytes, Output.words, uint32_bytes, sizeof_Output,
        words_of_bytes, e _ h1, e _ h2, e _ h3, e _ h4, e _ h5, e _ h6, e _ h7]

/-- C7: for every well-formed `Input` and `Output` (every member a 32-bit
word, three resp. two sizes and strides), the object representation is 36
resp. 28 bytes, which is `sizeof(Input)` resp. `sizeof(Output)`; copying it
into guest memory with `memcpy` and reading the same bytes back gives the
bytes written, and these decode to the descriptor that was written.  In
`app_instance_main` each descriptor is copied with exactly the size that was
requested from `wasm_runtime_module_malloc` for it, to the address that
allocation returned. -/
theorem descriptor_roundtrip (m : Mem) (p : Nat) (i : Input) (o : Output) (w : World)
    (hi : i.WF) (ho : o.WF) :
    sizeof_Input = 36 ∧ sizeof_Output = 28 ∧
    i.bytes.length = sizeof_Input ∧
    (memcpy m p i.bytes).read p sizeof_Input = i.bytes ∧
    Input.of_bytes ((memcpy m p i.bytes).read p sizeof_Input) = some i ∧
    o.bytes.length = sizeof_Output ∧
    (memcpy m p o.bytes).read p sizeof_Output = o.bytes ∧
    Output.of_bytes ((memcpy m p o.bytes).read p sizeof_Output) = some o ∧
    (∀ dst d n, Event.memcpy dst (.input d) n ∈ Tflite.app_instance_main w →
      n = sizeof_Input ∧ d = Tflite.input (w.module_malloc 0) ∧
      dst = native_addr (w.module_malloc 1) ∧
      Event.module_malloc sizeof_Input (w.module_malloc 1) ∈ Tflite.app_instance_main w) ∧
    (∀ dst d n, Event.memcpy dst (.output d) n ∈ Tflite.app_instance_main w →
      n = sizeof_Output ∧ d = Tflite.output (w.module_malloc 2) ∧
      dst = native_addr (w.module_malloc 3) ∧
      Event.module_malloc sizeof_Output (w.module_malloc 3) ∈ Tflite.app_instance_main w) ∧
    (∀ q, q < 2 ^ 32 → (Tflite.input q).WF ∧ (Tflite.output q).WF) := by
  obtain ⟨il, idec⟩ := input_roundtrip i hi
  obtain ⟨ol, odec⟩ := output_roundtrip o ho
  have ib : (memcpy m p i.bytes).read p sizeof_Input = i.bytes := by
    rw [← il]; exact read_memcpy m p i.bytes
  have ob : (memcpy m p o.bytes).read p sizeof_Output = o.bytes := by
    rw [← ol]; exact read_memcpy m p o.bytes
  refine ⟨rfl, rfl, il, ib, by rw [ib]; exact idec, ol, ob, by rw [ob]; exact odec, ?_, ?_, ?_⟩
  · intro dst d n
    cases h1 : w.create_exec_env <;> cases h2 : w.lookup_function "_mlir_ciface_main" <;>
      cases h3 : w.exception <;> simp [Tflite.app_instance_main, h1, h2, h3] <;>
      (intro a b c; simp [a, b, c])
  · intro dst d n
    cases h1 : w.create_exec_env <;> cases h2 : w.lookup_function "_mlir_ciface_main" <;>
      cases h3 : w.exception <;> simp [Tflite.app_instance_main, h1, h2, h3] <;>
      (intro a b c; simp [a, b, c])
  · intro q hq
    simp only [Input.WF, Output.WF, Tflite.input, Tflite.output, Input.words, Output.words]
    refine ⟨⟨rfl, rfl, ?_⟩, ⟨rfl, rfl, ?_⟩⟩ <;>
      (intro x hx
       simp only [List.cons_append, List.nil_append, List.mem_cons, List.mem_singleton,
         List.not_mem_nil, or_false] at hx
       rcases hx with rfl | rfl | rfl | rfl | rfl | rfl | rfl | rfl | rfl <;> omega)

theorem tflite_input_wf : (Tflite.input 4096).WF := by
  simp only [Input.WF, Tflite.input, Input.words]
  refine ⟨rfl, rfl, ?_⟩
  intro x hx
  simp only [List.cons_append, List.nil_append, List.mem_cons, List.mem_singleton,
    List.not_mem_nil, or_false] at hx
  rcases hx with rfl | rfl | rfl | rfl | rfl | rfl | rfl | rfl | rfl <;> omega

theorem tflite_output_wf : (Tflite.output 12288).WF := by
  simp only [Output.WF, Tflite.output, Output.words]
  refine ⟨rfl, rfl, ?_⟩
  intro x hx
  simp only [List.cons_append, List.nil_append, List.mem_cons, List.mem_singleton,
    List.not_mem_nil, or_false] at hx
  rcases hx with rfl | rfl | rfl | rfl | rfl | rfl | rfl <;> omega

/-- Witness for C7: the descriptors of the all-success run, written at
guest offsets 8192 and 16384 of an all-zero memory. -/
theorem descriptor_roundtrip_witness :
    (Tflite.input 4096).WF ∧ (Tflite.output 12288).WF ∧
    Input.of_bytes ((memcpy (fun _ => 0) 8192 (Tflite.input 4096).bytes).read 8192 sizeof_Input)
      = some (Tflite.input 4096) :=
  ⟨tflite_input_wf, tflite_output_wf,
    (descriptor_roundtrip (fun _ => 0) 8192 (Tflite.input 4096) (Tflite.output 12288) world_ok
      tflite_input_wf tflite_output_wf).2.2.2.2.1⟩

/-! ## C8: the preprocessing loop of `tflite-wasm` -/

theorem round_nearest_even_intCast (k : ℤ) : round_nearest_even (k : ℚ) = k := by
  simp [round_nearest_even]

theorem round_nearest_even_err (x : ℚ) : |(round_nearest_even x : ℚ) - x| ≤ 1 / 2 := by
  have h1 := Int.floor_le x
  have h2 := Int.lt_floor_add_one x
  unfold round_nearest_even
  split_ifs with a b c
  · rw [abs_le]; constructor <;> linarith
  · push_cast; rw [abs_le]; constructor <;> linarith
  · rw [abs_le]; constructor <;> linarith
  · push_cast; rw [abs_le]; constructor <;> linarith

theorem round_nearest_even_up (x : ℚ) (f : ℤ) (h1 : (f : ℚ) + 1 / 2 < x) (h2 : x < f + 1) :
    round_nearest_even x = f + 1 := by
  have hf : ⌊x⌋ = f := by
    rw [Int.floor_eq_iff]
    constructor <;> linarith
  unfold round_nearest_even
  rw [hf]
  have a : ¬ (x - f < 1 / 2) := by linarith
  have b : (1 : ℚ) / 2 < x - f := by linarith
  rw [if_neg a, if_pos b]

theorem int_log_two_eq (q : ℚ) (e : ℤ) (hq : 0 < q) (h1 : (2 : ℚ) ^ e ≤ q)
    (h2 : q < (2 : ℚ) ^ (e + 1)) : Int.log 2 q = e := by
  apply le_antisymm
  · have := (Int.lt_zpow_iff_log_lt (b := 2) (by norm_num) hq).mp h2
    omega
  · exact (Int.zpow_le_iff_le_log (b := 2) (by norm_num) hq).mp h1

theorem float32_exponent_eq (q : ℚ) (h : (2 : ℚ) ^ (-126 : ℤ) ≤ q) :
    float32_exponent q = Int.log 2 q := by
  have hq : 0 < q := lt_of_lt_of_le (by positivity) h
  have := (Int.zpow_le_iff_le_log (b := 2) (by norm_num) hq).mp h
  unfold float32_exponent
  rw [abs_of_pos hq]
  exact max_eq_left this

theorem float32_round_err (q : ℚ) (h : (2 : ℚ) ^ (-126 : ℤ) ≤ q) :
    |float32_round q - q| ≤ q * 2 ^ (-24 : ℤ) := by
  have hq : 0 < q := lt_of_lt_of_le (by positivity) h
  have he := float32_exponent_eq q h
  have hle : (2 : ℚ) ^ Int.log 2 q ≤ q := Int.zpow_log_le_self (by norm_num) hq
  unfold float32_round
  rw [he]
  set u : ℚ := 2 ^ (Int.log 2 q - 23) with hu
  have hupos : 0 < u := by positivity
  have herr := round_nearest_even_err (q / u)
  have key : (round_nearest_even (q / u) : ℚ) * u - q
      = ((round_nearest_even (q / u) : ℚ) - q / u) * u := by
    field_simp
  rw [key, abs_mul, abs_of_pos hupos]
  have hu2 : u = 2 ^ Int.log 2 q * 2 ^ (-23 : ℤ) := by
    rw [hu, ← zpow_add₀ (by norm_num : (2 : ℚ) ≠ 0)]
    congr 1
  calc |(round_nearest_even (q / u) : ℚ) - q / u| * u ≤ 1 / 2 * u :=
        mul_le_mul_of_nonneg_right herr hupos.le
    _ = 2 ^ Int.log 2 q * 2 ^ (-24 : ℤ) := by rw [hu2]; norm_num; ring
    _ ≤ q * 2 ^ (-24 : ℤ) := mul_le_mul_of_nonneg_right hle (by positivity)

theorem float32_round_natCast (n : ℕ) (h : n < 2 ^ 24) : float32_round (n : ℚ) = n := by
  rcases Nat.eq_zero_or_pos n with rfl | hpos
  · simp [float32_round, round_nearest_even]
  · have hlog : Int.log 2 (n : ℚ) = (Nat.log 2 n : ℤ) := Int.log_natCast 2 n
    have hk : Nat.log 2 n < 24 := Nat.log_lt_of_lt_pow (by omega) h
    have hexp : float32_exponent (n : ℚ) = (Nat.log 2 n : ℤ) := by
      unfold float32_exponent
      rw [abs_of_nonneg (by positivity), hlog]
      apply max_eq_left
      omega
    unfold float32_round
    rw [hexp]
    obtain ⟨j, hj⟩ : ∃ j : ℕ, (Nat.log 2 n : ℤ) - 23 = -(j : ℤ) := ⟨23 - Nat.log 2 n, by omega⟩
    rw [hj, zpow_neg, zpow_natCast]
    have h2 : (n : ℚ) / ((2 : ℚ) ^ j)⁻¹ = ((n * 2 ^ j : ℕ) : ℤ) := by
      push_cast
      field_simp
    rw [h2, round_nearest_even_intCast]
    push_cast
    field_simp

theorem scale_natCast (n : ℕ) (h : n ≤ 255) :
    Tflite.scale (n : ℚ) = float32_round ((n : ℚ) / 255) := by
  unfold Tflite.scale
  rw [float32_round_natCast n (by omega)]
  have := float32_round_natCast 255 (by norm_num)
  push_cast at this
  rw [this]

theorem scale_one_eq : Tflite.scale 1 = 8421505 / 2 ^ 31 := by
  have h := scale_natCast 1 (by norm_num)
  push_cast at h
  rw [h]
  have hlog : Int.log 2 ((1 : ℚ) / 255) = -8 :=
    int_log_two_eq _ _ (by norm_num) (by norm_num) (by norm_num)
  have hexp : float32_exponent ((1 : ℚ) / 255) = -8 := by
    rw [float32_exponent_eq _ (by norm_num), hlog]
  unfold float32_round
  rw [hexp, round_nearest_even_up _ 8421504 (by norm_num) (by norm_num)]
  norm_num

theorem scale_zero_eq : Tflite.scale 0 = 0 := by
  have h := scale_natCast 0 (by norm_num)
  push_cast at h
  rw [h]
  simp [float32_round, round_nearest_even]

theorem scale_full_eq : Tflite.scale 255 = 1 := by
  have h := scale_natCast 255 (by norm_num)
  push_cast at h
  rw [h]
  have := float32_round_natCast 1 (by norm_num)
  push_cast at this
  rw [div_self (by norm_num), this]

theorem scale_near (n : ℕ) (h : n ≤ 255) :
    |Tflite.scale (n : ℚ) - (n : ℚ) / 255| ≤ (n : ℚ) / 255 * 2 ^ (-24 : ℤ) := by
  rcases Nat.eq_zero_or_pos n with rfl | hpos
  · have := scale_zero_eq
    push_cast
    rw [this]
    norm_num
  · rw [scale_natCast n h]
    apply float32_round_err
    have h1 : (1 : ℚ) ≤ n := by exact_mod_cast hpos
    have h2 : (1 : ℚ) / 255 ≤ (n : ℚ) / 255 := by
      apply div_le_div_of_nonneg_right h1 (by norm_num)
    refine le_trans ?_ h2
    norm_num

theorem scaled_data_get (f : Nat → ℚ) (i : Nat) (hi : i < 784) :
    (Tflite.scaled_data f)[i]? = some (Tflite.scale (f i)) := by
  simp [Tflite.scaled_data, Tflite.scaled_data_len, List.getElem?_map, List.getElem?_range, hi]

/-- C8 fails as stated: for the pixel value 1 the element stored in
`scaled_data` is the `float32` quotient 8421505 / 2^31, which is not 1 / 255. -/
theorem scaled_pixel_one_not_exact :
    (Tflite.scaled_data (fun _ => 1))[0]? = some ((8421505 : ℚ) / 2 ^ 31) ∧
    (8421505 : ℚ) / 2 ^ 31 ≠ 1 / 255 ∧
    (Tflite.scaled_data (fun _ => 1))[0]? ≠ some ((1 : ℚ) / 255) := by
  have h := scaled_data_get (fun _ => 1) 0 (by norm_num)
  rw [scale_one_eq] at h
  refine ⟨h, by norm_num, ?_⟩
  rw [h]
  norm_num

/-- C8 (amended): the preprocessing loop fills the 784 elements of
`scaled_data` element by element: element `i` is the `float32` quotient of
`input_data[i]` and 255, both converted to `float32`, and depends on
`input_data[i]` only.  For an integer pixel value `v` between 0 and 255 the
conversions are exact, the stored value is `v / 255` rounded to `float32`
and differs from `v / 255` by at most `v / 255` times 2^-24; it lies between
0 and 1, 0 goes to 0, 255 goes to 1, and the map is strictly increasing in
`v`. -/
theorem preprocess_elementwise_float32 (input_data : Nat → ℚ) :
    (Tflite.scaled_data input_data).length = 784 ∧
    (∀ i, i < 784 → (Tflite.scaled_data input_data)[i]?
      = some (float32_round (float32_round (input_data i) / float32_round 255))) ∧
    (∀ (other : Nat → ℚ) (i : Nat), i < 784 → other i = input_data i →
      (Tflite.scaled_data other)[i]? = (Tflite.scaled_data input_data)[i]?) ∧
    (∀ v : ℕ, v ≤ 255 →
      Tflite.scale v = float32_round ((v : ℚ) / 255) ∧
      |Tflite.scale v - (v : ℚ) / 255| ≤ (v : ℚ) / 255 * 2 ^ (-24 : ℤ)) ∧
    (∀ v : ℕ, v ≤ 255 → 0 ≤ Tflite.scale v ∧ Tflite.scale v ≤ 1) ∧
    Tflite.scale 0 = 0 ∧ Tflite.scale 255 = 1 ∧
    (∀ u v : ℕ, u < v → v ≤ 255 → Tflite.scale u < Tflite.scale v) := by
  have hlo : ∀ n : ℕ, n ≤ 255 →
      (n : ℚ) / 255 * (1 - 1 / 16777216) ≤ Tflite.scale n := by
    intro n hn
    have := scale_near n hn
    rw [abs_le] at this
    norm_num at this
    linarith [this.1]
  have hhi : ∀ n : ℕ, n ≤ 255 →
      Tflite.scale n ≤ (n : ℚ) / 255 * (1 + 1 / 16777216) := by
    intro n hn
    have := scale_near n hn
    rw [abs_le] at this
    norm_num at this
    linarith [this.2]
  refine ⟨by simp [Tflite.scaled_data, Tflite.scaled_data_len], ?_, ?_, ?_, ?_,
    scale_zero_eq, scale_full_eq, ?_⟩
  · intro i hi
    exact scaled_data_get input_data i hi
  · intro other i hi h
    rw [scaled_data_get other i hi, scaled_data_get input_data i hi, h]
  · intro v hv
    exact ⟨scale_natCast v hv, scale_near v hv⟩
  · intro v hv
    have h0 : (0 : ℚ) ≤ v := by positivity
    refine ⟨le_trans (by positivity) (hlo v hv), ?_⟩
    rcases Nat.lt_or_ge v 255 with hlt | hge
    · have h254 : (v : ℚ) ≤ 254 := by exact_mod_cast Nat.le_of_lt_succ hlt
      have := hhi v hv
      linarith
    · have : v = 255 := le_antisymm hv hge
      subst this
      have := scale_full_eq
      push_cast
      rw [this]
  · intro u v huv hv
    have hu : u ≤ 255 := by omega
    have h1 : (u : ℚ) + 1 ≤ v := by exact_mod_cast huv
    have h2 : (v : ℚ) ≤ 255 := by exact_mod_cast hv
    have h3 : (0 : ℚ) ≤ u := by positivity
    have a := hhi u hu
    have b := hlo v hv
    linarith

/-- Witness for C8 (amended): pixel values 1 and 128. -/
theorem preprocess_elementwise_float32_witness :
    (1 : ℕ) < 128 ∧ (128 : ℕ) ≤ 255 ∧
    Tflite.scale ((1 : ℕ) : ℚ) < Tflite.scale ((128 : ℕ) : ℚ) :=
  ⟨by decide, by decide,
    (preprocess_elementwise_float32 (fun _ => 0)).2.2.2.2.2.2.2 1 128 (by decide) (by decide)⟩

/-! ## C9: stack and heap budgets -/

/-- C9: evaluation of both programs on the all-success run.  `tflm-wasm`
instantiates with stack 32768 and heap 524288 but creates the exec env with
524288, the heap budget, and never with 32768; `tflite-wasm` instantiates
with stack 256000 and heap 256000 and creates the exec env with 256000. -/
theorem tflm_exec_env_gets_heap_budget :
    Tflm.CONFIG_APP_STACK_SIZE = 32768 ∧ Tflm.CONFIG_APP_HEAP_SIZE = 524288 ∧
    Event.instantiate 32768 524288 true ∈ Tflm.iwasm_main world_ok ∧
    Event.create_exec_env 524288 true ∈ Tflm.iwasm_main world_ok ∧
    (∀ ok, Event.create_exec_env 32768 ok ∉ Tflm.iwasm_main world_ok) ∧
    Event.instantiate 256000 256000 true ∈ Tflite.iwasm_main world_ok ∧
    Event.create_exec_env 256000 true ∈ Tflite.iwasm_main world_ok := by
  refine ⟨rfl, rfl, ?_, ?_, ?_, ?_, ?_⟩ <;>
    simp [Tflm.iwasm_main, Tflm.app_instance_main, Tflite.iwasm_main,
      Tflite.app_instance_main, world_ok, Tflm.CONFIG_APP_STACK_SIZE,
      Tflm.CONFIG_APP_HEAP_SIZE, Tflite.CONFIG_APP_STACK_SIZE, Tflite.CONFIG_APP_HEAP_SIZE]

/-! ## C10: consistency of the tensor constants of `tflite-wasm` -/

/-- C10: for the input descriptor (sizes 1, 28, 28) and the output
descriptor (sizes 1, 10) the strides are the row-major strides of the
sizes, `base_ptr` equals `data` and `offset` is 0; `INPUT_TENSOR_SIZE` is
3136, four bytes times the product of the input sizes and the byte size of
`scaled_data`; `OUTPUT_TENSOR_SIZE` is 40, four bytes times the product of
the output sizes; every element addressed by a multi-index within the sizes,
and every index read by the output print loop, lies inside its buffer; the
four allocation requests are 3136, 36, 40 and 28 bytes, each positive, with
a total of 3240 that does not exceed `CONFIG_APP_HEAP_SIZE`. -/
theorem tensor_constants_consistent (w : World) (p q : Nat) (input_data : Nat → ℚ) :
    (Tflite.input p).sizes = [1, 28, 28] ∧ (Tflite.output q).sizes = [1, 10] ∧
    (Tflite.input p).strides = row_major_strides (Tflite.input p).sizes ∧
    (Tflite.output q).strides = row_major_strides (Tflite.output q).sizes ∧
    (Tflite.input p).base_ptr = (Tflite.input p).data ∧ (Tflite.input p).offset = 0 ∧
    (Tflite.output q).base_ptr = (Tflite.output q).data ∧ (Tflite.output q).offset = 0 ∧
    Tflite.INPUT_TENSOR_SIZE = 3136 ∧
    Tflite.INPUT_TENSOR_SIZE = Tflite.sizeof_float32 * (Tflite.input p).sizes.prod ∧
    Tflite.INPUT_TENSOR_SIZE
      = Tflite.sizeof_float32 * (Tflite.scaled_data input_data).length ∧
    Tflite.OUTPUT_TENSOR_SIZE = 40 ∧
    Tflite.OUTPUT_TENSOR_SIZE = Tflite.sizeof_float32 * (Tflite.output q).sizes.prod ∧
    (∀ idx, List.Forall₂ (fun i n => i < n) idx (Tflite.input p).sizes →
      Tflite.sizeof_float32 * elem_index (Tflite.input p).offset idx (Tflite.input p).strides
        + Tflite.sizeof_float32 ≤ Tflite.INPUT_TENSOR_SIZE) ∧
    (∀ idx, List.Forall₂ (fun i n => i < n) idx (Tflite.output q).sizes →
      Tflite.sizeof_float32 * elem_index (Tflite.output q).offset idx (Tflite.output q).strides
        + Tflite.sizeof_float32 ≤ Tflite.OUTPUT_TENSOR_SIZE) ∧
    (∀ i v, Event.print (.output_value i v) ∈ Tflite.app_instance_main w →
      Tflite.sizeof_float32 * i + Tflite.sizeof_float32 ≤ Tflite.OUTPUT_TENSOR_SIZE) ∧
    (w.create_exec_env = true →
      malloc_sizes (Tflite.app_instance_main w)
        = [Tflite.INPUT_TENSOR_SIZE, sizeof_Input, Tflite.OUTPUT_TENSOR_SIZE, sizeof_Output]) ∧
    0 < Tflite.INPUT_TENSOR_SIZE ∧ 0 < sizeof_Input ∧ 0 < Tflite.OUTPUT_TENSOR_SIZE ∧
    0 < sizeof_Output ∧
    Tflite.INPUT_TENSOR_SIZE + sizeof_Input + Tflite.OUTPUT_TENSOR_SIZE + sizeof_Output = 3240 ∧
    Tflite.INPUT_TENSOR_SIZE + sizeof_Input + Tflite.OUTPUT_TENSOR_SIZE + sizeof_Output
      ≤ Tflite.CONFIG_APP_HEAP_SIZE := by
  refine ⟨rfl, rfl, rfl, rfl, rfl, rfl, rfl, rfl, rfl, rfl, ?_, rfl, rfl, ?_, ?_, ?_, ?_,
    by decide, by decide, by decide, by decide, rfl, by decide⟩
  · simp [Tflite.scaled_data, Tflite.scaled_data_len, Tflite.INPUT_TENSOR_SIZE,
      Tflite.sizeof_float32]
  · intro idx h
    simp only [Tflite.input, List.forall₂_cons_right_iff, List.forall₂_nil_right_iff] at h
    obtain ⟨i0, r0, h0, ⟨i1, r1, h1, ⟨i2, r2, h2, rfl, rfl⟩, rfl⟩, rfl⟩ := h
    simp only [Tflite.input, elem_index, List.zipWith_cons_cons, List.zipWith_nil_left,
      List.sum_cons, List.sum_nil, Tflite.sizeof_float32, Tflite.INPUT_TENSOR_SIZE]
    omega
  · intro idx h
    simp only [Tflite.output, List.forall₂_cons_right_iff, List.forall₂_nil_right_iff] at h
    obtain ⟨i0, r0, h0, ⟨i1, r1, h1, rfl, rfl⟩, rfl⟩ := h
    simp only [Tflite.output, elem_index, List.zipWith_cons_cons, List.zipWith_nil_left,
      List.sum_cons, List.sum_nil, Tflite.sizeof_float32, Tflite.OUTPUT_TENSOR_SIZE]
    omega
  · intro i v
    cases h1 : w.create_exec_env <;> cases h2 : w.lookup_function "_mlir_ciface_main" <;>
      cases h3 : w.exception <;>
      simp [Tflite.app_instance_main, h1, h2, h3, Tflite.sizeof_float32,
        Tflite.OUTPUT_TENSOR_SIZE] <;>
      (intro a ha _ _; omega)
  · intro h1
    cases h2 : w.lookup_function "_mlir_ciface_main" <;> cases h3 : w.exception <;>
      simp [Tflite.app_instance_main, malloc_sizes, h1, h2, h3, List.filterMap_cons,
        List.filterMap_append]

/-- Witness for C10: on the all-success run the four allocation requests are
3136, 36, 40 and 28 bytes. -/
theorem tensor_constants_consistent_witness :
    world_ok.create_exec_env = true ∧
    malloc_sizes (Tflite.app_instance_main world_ok) = [3136, 36, 40, 28] :=
  ⟨rfl, (tensor_constants_consistent world_ok 4096 12288 (fun _ => 0)).2.2.2.2.2.2.2.2.2.2.2.2.2.2.2.2.1
    rfl⟩

end Wamr
